import Mathlib

/-!
Shallow embedding of the closure/callback bridge of `src/gi/closure.c`.

Pointers (`JSRuntime *`, `JSContext *`, `JSObject *`) are modelled as
`Option Nat` identities; exceptions (`jsval` in the pending-exception slot)
as `Option Nat`; `jsval` return values as `Nat`.

The code under `src/gi/closure.c` is the authority for every definition that
embeds a function of that file.  The external collaborators it calls —
GLib's `GClosure` refcounting and invalidate-notifier machinery, the
SpiderMonkey context iterator and exception slot, and the keep-alive
(finalization-registry) mechanism, none of which live under `src/` — are
modelled from their documented interfaces as the spec describes them
(sections 2, 4.2 and 6); every such modelled definition says so in its
doc comment.
-/

namespace GjsClosure

/-- The engine-side state visible to the bridge: the set of live
(runtime, context) pairs.  The spec (section 6) consumes from the engine only
the query "is this context currently one of this runtime's live contexts",
realised in the code by walking `JS_ContextIterator`. -/
structure Engine where
  liveContexts : List (Nat × Nat)
deriving DecidableEq

/-- Modelled external API: SpiderMonkey `JS_ContextIterator`, enumerating the
live contexts of one runtime (closure.c lines 110-111 walk it). -/
def JS_ContextIterator (e : Engine) (rt : Nat) : List Nat :=
  (e.liveContexts.filter (fun p => p.1 == rt)).map (fun p => p.2)

/-- The loop of closure.c lines 109-115: walk the runtime's live contexts and
compare each against the stored `c->context`. -/
def contextFound (e : Engine) (rt : Nat) (ctx : Option Nat) : Bool :=
  (JS_ContextIterator e rt).any (fun a => some a == ctx)

/-- The `Closure` struct of closure.c lines 35-41 (the triple
`runtime`/`context`/`obj` plus the `unref_on_global_object_finalized` flag),
together with the state of its `GClosure base` that the code depends on
(`refCount`, the `is_invalid` latch), the keep-alive registration made in
`gjs_closure_new` (`registeredObj`, `none` once removed or consumed), a
`finalized` marker (storage reclaimed at refcount zero), and two ghost
instrumentation fields: `clearCount` counts executions of a triple-clearing
site, and `notifySnaps` records, for each invalidate notification delivered
to listeners, the triple they can observe at that point. -/
structure ClosureState where
  runtime : Option Nat
  context : Option Nat
  obj : Option Nat
  unref_on_global_object_finalized : Bool
  refCount : Nat
  isInvalid : Bool
  registeredObj : Option Nat
  finalized : Bool
  clearCount : Nat
  notifySnaps : List (Option Nat × Option Nat × Option Nat)
deriving DecidableEq

/-- The triple-clearing step shared by closure.c lines 60-62 and lines
203-205: all three pointers are nulled together; the ghost `clearCount`
records that a clearing site ran. -/
def clear3 (c : ClosureState) : ClosureState :=
  { c with obj := none, context := none, runtime := none,
           clearCount := c.clearCount + 1 }

/-- GClosure finalization (modelled from the GLib interface): storage is
reclaimed when the refcount reaches zero; the `closure_finalized` notifier of
closure.c lines 209-214 only decrements a diagnostic counter. -/
def finalizeClosure (c : ClosureState) : ClosureState :=
  { c with finalized := true }

/-- closure.c lines 54-68 (`invalidate_js_pointers`) as it executes while the
GClosure invalidate notifiers are being dispatched: `is_invalid` is already
set at that point, so the `g_closure_invalidate` call at line 67 is a no-op.
Theorem `check_context_valid_in_notify_agrees` below certifies that this
instantiation agrees with the general `invalidate_js_pointers` on every
already-invalidated state. -/
def invalidate_js_pointers_in_notify (c : ClosureState) : ClosureState :=
  if c.obj = none then c else clear3 c

/-- closure.c lines 100-123 (`check_context_valid`) as it executes during
invalidate-notifier dispatch (see `invalidate_js_pointers_in_notify`):
return immediately when `c->runtime` is null, otherwise walk the runtime's
contexts and invalidate the JS pointers when the stored context is absent. -/
def check_context_valid_in_notify (e : Engine) (c : ClosureState) : ClosureState :=
  match c.runtime with
  | none => c
  | some rt =>
      if contextFound e rt c.context then c
      else invalidate_js_pointers_in_notify c

/-- closure.c lines 134-207 (`closure_invalidated`), the GClosure invalidate
notifier registered in `gjs_closure_new`.  It only ever runs during
`g_closure_invalidate` dispatch, hence with `is_invalid` already set.
If the closure is already dead (`c->obj == NULL`) it does nothing.  Otherwise
it re-checks context liveness; if the context turned out dead (triple now
cleared) it sets `unref_on_global_object_finalized` and takes a reference on
itself (lines 184-185); if the context is alive it removes the keep-alive
child (lines 198-201) and clears the triple (lines 203-205). -/
def closure_invalidated (e : Engine) (c : ClosureState) : ClosureState :=
  if c.obj = none then c
  else
    let c1 := check_context_valid_in_notify e c
    if c1.obj = none then
      { c1 with unref_on_global_object_finalized := true,
                refCount := c1.refCount + 1 }
    else
      let c2 := { c1 with registeredObj := none }
      clear3 c2

/-- Modelled external API: GLib `g_closure_invalidate`.  On a closure that is
not yet invalid it takes a temporary reference, latches `is_invalid`,
dispatches the invalidate notifiers — the `closure_invalidated` handler
registered at creation, and the external listeners the spec calls "closure
reference holders", whose observation of the bridge is recorded as a ghost
snapshot of the triple in `notifySnaps` — and drops the temporary reference
(reaching refcount zero there would finalize, mirroring `g_closure_unref`;
the recursive invalidation reached through the notifier is cut by the
`is_invalid` latch). -/
def g_closure_invalidate (e : Engine) (c : ClosureState) : ClosureState :=
  if c.isInvalid then c
  else
    let c1 := { c with refCount := c.refCount + 1, isInvalid := true }
    let c2 := closure_invalidated e c1
    let c3 := { c2 with
                notifySnaps := (c2.obj, c2.context, c2.runtime) :: c2.notifySnaps }
    let c4 := { c3 with refCount := c3.refCount - 1 }
    if c4.refCount = 0 then finalizeClosure c4 else c4

/-- closure.c lines 54-68 (`invalidate_js_pointers`): if the triple is already
cleared do nothing, otherwise null all three pointers and only then notify
closure reference holders through `g_closure_invalidate`. -/
def invalidate_js_pointers (e : Engine) (c : ClosureState) : ClosureState :=
  if c.obj = none then c
  else g_closure_invalidate e (clear3 c)

/-- closure.c lines 100-123 (`check_context_valid`): the lazy context-liveness
check.  Returns immediately when `c->runtime` is null; otherwise walks the
runtime's live contexts and, when the stored context is no longer among them,
performs the invalidation via `invalidate_js_pointers`. -/
def check_context_valid (e : Engine) (c : ClosureState) : ClosureState :=
  match c.runtime with
  | none => c
  | some rt =>
      if contextFound e rt c.context then c
      else invalidate_js_pointers e c

/-- Modelled external API: GLib `g_closure_ref`. -/
def g_closure_ref (c : ClosureState) : ClosureState :=
  { c with refCount := c.refCount + 1 }

/-- Modelled external API: GLib `g_closure_unref`.  The last unref first runs
`g_closure_invalidate`, then the count is decremented, and the closure is
finalized when it reaches zero. -/
def g_closure_unref (e : Engine) (c : ClosureState) : ClosureState :=
  let c1 := if c.refCount = 1 then g_closure_invalidate e c else c
  let c2 := { c1 with refCount := c1.refCount - 1 }
  if c2.refCount = 0 then finalizeClosure c2 else c2

/-- closure.c lines 70-98 (`global_context_finalized`), the keep-alive
(finalization-registry) notifier: latch and reset the
`unref_on_global_object_finalized` flag first (lines 86-87), invalidate the
JS pointers if the triple is still populated (lines 89-93; the
`g_assert (c->obj == obj)` there relates the stored callable to the watched
object `o`), and finally drop the deferred self-reference if the flag was
set (lines 95-97). -/
def global_context_finalized (e : Engine) (o : Nat) (c : ClosureState) : ClosureState :=
  let need_unref := c.unref_on_global_object_finalized
  let c1 := { c with unref_on_global_object_finalized := false }
  let c2 := if c1.obj = none then c1 else invalidate_js_pointers e c1
  if need_unref then g_closure_unref e c2 else c2

/-- The context's exception slot and a ghost log of reported exceptions. -/
structure JSState where
  pending : Option Nat
  logged : List Nat
deriving DecidableEq

/-- `gjs_log_exception` (gjs jsapi utility, not under `src/`).  Modelled from
the spec: reads the engine's pending-exception slot, reports (logs) the
exception if one is pending and clears the slot, returning whether one was
pending (spec section 6: `engine.pending_exception` / `engine.clear_exception`,
section 4.1: "an exception left pending after invocation return is itself
reported"). -/
def gjs_log_exception (s : JSState) : Bool × JSState :=
  match s.pending with
  | some exc => (true, { pending := none, logged := exc :: s.logged })
  | none => (false, s)

/-- Oracle for one engine call through `gjs_call_function_value` /
`JS_CallFunctionValue` (external collaborator, spec section 6
`engine.invoke_callable`): `ok` is the returned boolean, `excAfter` the
content of the pending-exception slot when the call returns, `ret` the value
the engine stores into `*retval` on success. -/
structure CallOutcome where
  ok : Bool
  excAfter : Option Nat
  ret : Nat
deriving DecidableEq

/-- The outcome of `gjs_closure_invoke`: the updated closure, the updated
exception state, the content of the caller's `*retval` slot afterwards, and a
ghost flag recording whether the call was dispatched to the callable. -/
structure InvokeResult where
  c : ClosureState
  js : JSState
  retval : Nat
  dispatched : Bool
deriving DecidableEq

/-- closure.c lines 216-265 (`gjs_closure_invoke`): re-check context
liveness; if the closure was destroyed, become a no-op (lines 230-234,
leaving `*retval` untouched).  Otherwise report any exception already pending
(lines 238-242), dispatch through `gjs_call_function_value`, and report the
pending exception exactly once whether the call returned failure
(lines 250-257) or success with an exception left set (lines 259-261). -/
def gjs_closure_invoke (e : Engine) (out : CallOutcome) (c : ClosureState)
    (s : JSState) (retval : Nat) : InvokeResult :=
  let c1 := check_context_valid e c
  if c1.obj = none then
    { c := { c1 with context := none }, js := s, retval := retval,
      dispatched := false }
  else
    let s1 := if s.pending.isSome then (gjs_log_exception s).2 else s
    let s2 := { s1 with pending := out.excAfter }
    if out.ok = false then
      let s3 := (gjs_log_exception s2).2
      { c := c1, js := s3, retval := retval, dispatched := true }
    else
      let s3 := (gjs_log_exception s2).2
      { c := c1, js := s3, retval := out.ret, dispatched := true }

/-- closure.c lines 267-304 (`gjs_closure_invoke_simple`): `pushOk` models
whether `JS_PushArgumentsVA` returned a non-null argv (line 283).  On push
failure the function returns `FALSE` without invoking the closure; otherwise
it invokes and returns `TRUE` regardless of the invocation's outcome. -/
def gjs_closure_invoke_simple (e : Engine) (out : CallOutcome) (pushOk : Bool)
    (c : ClosureState) (s : JSState) (retval : Nat) :
    Bool × ClosureState × JSState × Nat :=
  if pushOk = false then (false, c, s, retval)
  else
    let r := gjs_closure_invoke e out c s retval
    (true, r.c, r.js, r.retval)

/-- closure.c lines 306-316 (`gjs_closure_get_context`): re-check liveness,
then return the stored context. -/
def gjs_closure_get_context (e : Engine) (c : ClosureState) :
    ClosureState × Option Nat :=
  let c1 := check_context_valid e c
  (c1, c1.context)

/-- closure.c lines 318-326 (`gjs_closure_get_callable`). -/
def gjs_closure_get_callable (c : ClosureState) : Option Nat :=
  c.obj

/-- closure.c lines 328-362 (`gjs_closure_new`): populate the triple, start
with one reference, register `global_context_finalized` as a keep-alive child
watching the callable, and register `closure_invalidated` as the invalidate
notifier. -/
def gjs_closure_new (rt ctx callable : Nat) : ClosureState :=
  { runtime := some rt
    context := some ctx
    obj := some callable
    unref_on_global_object_finalized := false
    refCount := 1
    isInvalid := false
    registeredObj := some callable
    finalized := false
    clearCount := 0
    notifySnaps := [] }

/-- The is-valid pattern used at every call site of `check_context_valid`:
run the lazy liveness check, then test whether the triple survived
(the `c->obj == NULL` test of lines 230, 145, 155). -/
def closure_is_valid (e : Engine) (c : ClosureState) : ClosureState × Bool :=
  let c1 := check_context_valid e c
  (c1, c1.obj.isSome)

/-- A world: one bridge under observation, the engine's live-context set, the
exception slot, and the caller's `*retval` slot. -/
structure World where
  eng : Engine
  c : ClosureState
  js : JSState
  retval : Nat
deriving DecidableEq

/-- The events that can reach the bridge: the three invalidation triggers
(unref to zero, explicit invalidation by a holder, context teardown followed
by its registry notifier), plus invocation and the introspection getters. -/
inductive Event where
  | ctxDeath (rt ctx : Nat)
  | globalFinalize
  | unref
  | ref
  | invoke (out : CallOutcome)
  | invalidate
  | getContext
  | getCallable
deriving DecidableEq

/-- One step of the cooperative single-threaded model.  Operating on a
finalized closure is a contract violation (spec section 7); the model freezes
the state there.  `ctxDeath` is the engine tearing a context down;
`globalFinalize` delivers the keep-alive registry notifier, consuming the
registration (each entry fires at most once, spec section 4.2). -/
def step (w : World) (ev : Event) : World :=
  match ev with
  | .ctxDeath rt ctx =>
      { w with eng := ⟨w.eng.liveContexts.filter (fun p => p != (rt, ctx))⟩ }
  | .globalFinalize =>
      if w.c.finalized then w
      else
        match w.c.registeredObj with
        | some o =>
            { w with c := global_context_finalized w.eng o
                            { w.c with registeredObj := none } }
        | none => w
  | .unref =>
      if w.c.finalized then w else { w with c := g_closure_unref w.eng w.c }
  | .ref =>
      if w.c.finalized then w else { w with c := g_closure_ref w.c }
  | .invoke out =>
      if w.c.finalized then w
      else
        let r := gjs_closure_invoke w.eng out w.c w.js w.retval
        { w with c := r.c, js := r.js, retval := r.retval }
  | .invalidate =>
      if w.c.finalized then w
      else { w with c := g_closure_invalidate w.eng w.c }
  | .getContext =>
      if w.c.finalized then w
      else { w with c := (gjs_closure_get_context w.eng w.c).1 }
  | .getCallable => w

/-- Run a trace of events. -/
def run (w : World) (evs : List Event) : World :=
  evs.foldl step w

/-- The world right after `gjs_closure_new rt ctx callable` against a given
live-context set. -/
def initWorld (live : List (Nat × Nat)) (rt ctx callable : Nat) : World :=
  { eng := ⟨live⟩
    c := gjs_closure_new rt ctx callable
    js := { pending := none, logged := [] }
    retval := 0 }

/-- The all-or-nothing triple invariant (spec section 3): the triple is
either fully populated or fully cleared. -/
def AllOrNothing (c : ClosureState) : Prop :=
  (c.obj = none ∧ c.context = none ∧ c.runtime = none) ∨
  (c.obj ≠ none ∧ c.context ≠ none ∧ c.runtime ≠ none)

instance (c : ClosureState) : Decidable (AllOrNothing c) := by
  unfold AllOrNothing
  infer_instance

/-- The reachable-state invariant of the bridge: the all-or-nothing triple;
the `is_invalid` latch implies the triple is cleared; the ghost clear counter
is exactly one once (and only once) the triple is cleared; listeners were
notified exactly once, with a fully cleared triple, exactly when the latch is
set; finalization implies invalidation ran; and a live closure holds at least
one reference. -/
def Inv (c : ClosureState) : Prop :=
  AllOrNothing c ∧
  (c.isInvalid = true → c.obj = none) ∧
  c.clearCount = (if c.obj = none then 1 else 0) ∧
  c.notifySnaps =
    (if c.isInvalid then
      [((none : Option Nat), (none : Option Nat), (none : Option Nat))]
     else []) ∧
  (c.finalized = true → c.isInvalid = true) ∧
  (c.finalized = false → 1 ≤ c.refCount)

instance (c : ClosureState) : Decidable (Inv c) := by
  unfold Inv
  infer_instance

/-! ### Helper lemmas -/

/-- Booleans are two-valued; a Bool that is not `true` is `false`. -/
theorem bool_eq_false {b : Bool} (h : ¬ b = true) : b = false := by
  cases b
  · rfl
  · exact absurd rfl h

/-- On an already-invalidated state the in-notifier instantiation of the lazy
liveness check agrees with the general one: the `g_closure_invalidate` call at
closure.c line 67 is a no-op once `is_invalid` is latched. -/
theorem check_context_valid_in_notify_agrees (e : Engine) (c : ClosureState)
    (h : c.isInvalid = true) :
    check_context_valid e c = check_context_valid_in_notify e c := by
  unfold check_context_valid check_context_valid_in_notify
  cases hrt : c.runtime with
  | none => rfl
  | some rt =>
      by_cases hf : contextFound e rt c.context = true
      · simp [hf]
      · simp only [bool_eq_false hf, Bool.false_eq_true, if_false]
        unfold invalidate_js_pointers invalidate_js_pointers_in_notify
        by_cases ho : c.obj = none
        · simp [ho]
        · simp only [ho, if_false]
          unfold g_closure_invalidate
          simp [clear3, h]

/-- The effect of the invalidate notifier when the closure is already dead. -/
theorem closure_invalidated_obj_none (e : Engine) (c : ClosureState)
    (h : c.obj = none) : closure_invalidated e c = c := by
  simp [closure_invalidated, h]

/-- `g_closure_invalidate` preserves the bridge invariant, never decreases the
reference count, never finalizes a live closure, and leaves `is_invalid`
latched. -/
theorem g_closure_invalidate_props (e : Engine) (c : ClosureState) (h : Inv c) :
    Inv (g_closure_invalidate e c) ∧
    c.refCount ≤ (g_closure_invalidate e c).refCount ∧
    (g_closure_invalidate e c).finalized = c.finalized ∧
    (g_closure_invalidate e c).isInvalid = true := by
  obtain ⟨hao, hlatch, hclear, hsnap, hfin, hrc⟩ := h
  by_cases hI : c.isInvalid = true
  · have hg : g_closure_invalidate e c = c := by simp [g_closure_invalidate, hI]
    rw [hg]
    exact ⟨⟨hao, hlatch, hclear, hsnap, hfin, hrc⟩, le_refl _, rfl, hI⟩
  · have hI' : c.isInvalid = false := bool_eq_false hI
    have hfin' : c.finalized = false := by
      cases hf : c.finalized
      · rfl
      · rw [hfin hf] at hI'
        exact absurd hI' (by simp)
    have hrc1 : 1 ≤ c.refCount := hrc hfin'
    have hsnap' : c.notifySnaps = [] := by
      rw [hsnap, hI']
      rfl
    have hrcne : ¬ c.refCount = 0 := by omega
    rcases hao with ⟨ho, hctx, hrt⟩ | ⟨ho, hctx, hrt⟩
    · -- triple already fully cleared: the notifier does nothing
      have hclear1 : c.clearCount = 1 := by simpa [ho] using hclear
      simp only [g_closure_invalidate, hI', Bool.false_eq_true, if_false]
      rw [closure_invalidated_obj_none e _ (by simpa using ho)]
      refine ⟨?_, ?_, ?_, ?_⟩ <;>
        simp [Inv, AllOrNothing, ho, hctx, hrt, hclear1, hsnap', hfin', hrcne] <;>
        omega
    · -- triple populated: the notifier clears it (context dead or alive)
      have hclear0 : c.clearCount = 0 := by simpa [ho] using hclear
      obtain ⟨rt, hrt'⟩ : ∃ rt, c.runtime = some rt := by
        cases hx : c.runtime
        · exact absurd hx hrt
        · exact ⟨_, rfl⟩
      simp only [g_closure_invalidate, hI', Bool.false_eq_true, if_false]
      by_cases hf : contextFound e rt c.context = true
      · -- context alive: keep-alive child removed, triple cleared in place
        simp only [closure_invalidated, check_context_valid_in_notify]
        simp only [ho, if_neg (by simpa using ho)]
        simp only [hrt', hf, if_true]
        simp only [ho, if_neg (by simpa using ho)]
        refine ⟨?_, ?_, ?_, ?_⟩ <;>
          simp [Inv, AllOrNothing, clear3, hclear0, hsnap', hfin', hrcne] <;>
          omega
      · -- context dead: triple cleared by the re-check, deferred self-ref taken
        simp only [closure_invalidated, check_context_valid_in_notify,
          invalidate_js_pointers_in_notify]
        simp only [ho, if_neg (by simpa using ho)]
        simp only [hrt', bool_eq_false hf, Bool.false_eq_true, if_false]
        simp only [clear3, ho, if_neg (by simpa using ho)]
        refine ⟨?_, ?_, ?_, ?_⟩ <;>
          simp [Inv, AllOrNothing, hclear0, hsnap', hfin'] <;> omega

/-- `g_closure_invalidate` preserves the bridge invariant. -/
theorem inv_g_closure_invalidate (e : Engine) (c : ClosureState) (h : Inv c) :
    Inv (g_closure_invalidate e c) :=
  (g_closure_invalidate_props e c h).1

/-- `Inv` only constrains the triple, the latch, the counters and the ghost
fields, so updating `refCount` and `finalized` preserves it as long as the
two side conditions about them are re-established. -/
theorem inv_update_rc_fin (d : ClosureState) (hd : Inv d) (rc : Nat) (fin : Bool)
    (h1 : fin = true → d.isInvalid = true)
    (h2 : fin = false → 1 ≤ rc) :
    Inv { d with refCount := rc, finalized := fin } :=
  ⟨hd.1, hd.2.1, hd.2.2.1, hd.2.2.2.1, h1, h2⟩

/-- `Inv` does not mention the deferred-unref flag. -/
theorem inv_set_flag (c : ClosureState) (h : Inv c) (b : Bool) :
    Inv { c with unref_on_global_object_finalized := b } :=
  ⟨h.1, h.2.1, h.2.2.1, h.2.2.2.1, h.2.2.2.2.1, h.2.2.2.2.2⟩

/-- `Inv` does not mention the keep-alive registration. -/
theorem inv_set_registered (c : ClosureState) (h : Inv c) (r : Option Nat) :
    Inv { c with registeredObj := r } :=
  ⟨h.1, h.2.1, h.2.2.1, h.2.2.2.1, h.2.2.2.2.1, h.2.2.2.2.2⟩

/-- Clearing a populated triple preserves the bridge invariant. -/
theorem inv_clear3 (c : ClosureState) (h : Inv c) (ho : c.obj ≠ none) :
    Inv (clear3 c) := by
  obtain ⟨hao, hlatch, hclear, hsnap, hfin, hrc⟩ := h
  have hI' : c.isInvalid = false := by
    cases hx : c.isInvalid
    · rfl
    · exact absurd (hlatch hx) ho
  have hfin' : c.finalized = false := by
    cases hx : c.finalized
    · rfl
    · rw [hfin hx] at hI'
      exact absurd hI' (by simp)
  have hclear0 : c.clearCount = 0 := by simpa [ho] using hclear
  refine ⟨Or.inl (by simp [clear3]), ?_, ?_, ?_, ?_, ?_⟩ <;>
    simp [clear3, hI', hclear0, hsnap, hfin', hrc hfin']

/-- `invalidate_js_pointers` preserves the bridge invariant, never decreases
the reference count and never finalizes. -/
theorem inv_invalidate_js_pointers (e : Engine) (c : ClosureState) (h : Inv c) :
    Inv (invalidate_js_pointers e c) ∧
    c.refCount ≤ (invalidate_js_pointers e c).refCount ∧
    (invalidate_js_pointers e c).finalized = c.finalized := by
  by_cases ho : c.obj = none
  · have hg : invalidate_js_pointers e c = c := by
      simp [invalidate_js_pointers, ho]
    rw [hg]
    exact ⟨h, le_refl _, rfl⟩
  · have hg : invalidate_js_pointers e c = g_closure_invalidate e (clear3 c) := by
      simp [invalidate_js_pointers, ho]
    have h2 := g_closure_invalidate_props e (clear3 c) (inv_clear3 c h ho)
    rw [hg]
    exact ⟨h2.1, h2.2.1, h2.2.2.1⟩

/-- The lazy liveness check preserves the bridge invariant, never decreases
the reference count and never finalizes. -/
theorem inv_check_context_valid (e : Engine) (c : ClosureState) (h : Inv c) :
    Inv (check_context_valid e c) ∧
    c.refCount ≤ (check_context_valid e c).refCount ∧
    (check_context_valid e c).finalized = c.finalized := by
  cases hrt : c.runtime with
  | none =>
      have heq : check_context_valid e c = c := by
        simp [check_context_valid, hrt]
      rw [heq]
      exact ⟨h, le_refl _, rfl⟩
  | some rt =>
      by_cases hf : contextFound e rt c.context = true
      · have heq : check_context_valid e c = c := by
          simp [check_context_valid, hrt, hf]
        rw [heq]
        exact ⟨h, le_refl _, rfl⟩
      · have heq : check_context_valid e c = invalidate_js_pointers e c := by
          simp [check_context_valid, hrt, bool_eq_false hf]
        rw [heq]
        exact inv_invalidate_js_pointers e c h

/-- `g_closure_unref` preserves the bridge invariant. -/
theorem inv_g_closure_unref (e : Engine) (c : ClosureState) (h : Inv c) :
    Inv (g_closure_unref e c) := by
  by_cases h1 : c.refCount = 1
  · have hp := g_closure_invalidate_props e c h
    by_cases h0 : (g_closure_invalidate e c).refCount - 1 = 0
    · have heq : g_closure_unref e c =
          finalizeClosure { g_closure_invalidate e c with
            refCount := (g_closure_invalidate e c).refCount - 1 } := by
        simp [g_closure_unref, h1, h0]
      rw [heq]
      exact inv_update_rc_fin _ hp.1 _ true (fun _ => hp.2.2.2) (by simp)
    · have heq : g_closure_unref e c =
          { g_closure_invalidate e c with
            refCount := (g_closure_invalidate e c).refCount - 1 } := by
        simp [g_closure_unref, h1, h0]
      rw [heq]
      exact inv_update_rc_fin _ hp.1 _ (g_closure_invalidate e c).finalized
        hp.1.2.2.2.2.1 (fun _ => by omega)
  · by_cases h0 : c.refCount - 1 = 0
    · have hft : c.finalized = true := by
        cases hx : c.finalized
        · have := h.2.2.2.2.2 hx
          omega
        · rfl
      have heq : g_closure_unref e c =
          finalizeClosure { c with refCount := c.refCount - 1 } := by
        simp [g_closure_unref, h1, h0]
      rw [heq]
      exact inv_update_rc_fin _ h _ true (fun _ => h.2.2.2.2.1 hft) (by simp)
    · have heq : g_closure_unref e c = { c with refCount := c.refCount - 1 } := by
        simp [g_closure_unref, h1, h0]
      rw [heq]
      exact inv_update_rc_fin _ h _ c.finalized h.2.2.2.2.1 (fun _ => by omega)

/-- `g_closure_ref` preserves the bridge invariant. -/
theorem inv_g_closure_ref (c : ClosureState) (h : Inv c) :
    Inv (g_closure_ref c) :=
  inv_update_rc_fin c h (c.refCount + 1) c.finalized h.2.2.2.2.1
    (fun _ => by omega)

/-- The keep-alive notifier `global_context_finalized` preserves the bridge
invariant. -/
theorem inv_global_context_finalized (e : Engine) (o : Nat) (c : ClosureState)
    (h : Inv c) : Inv (global_context_finalized e o c) := by
  have h1 : Inv { c with unref_on_global_object_finalized := false } :=
    inv_set_flag c h false
  by_cases ho : c.obj = none
  · by_cases hfl : c.unref_on_global_object_finalized = true
    · have heq : global_context_finalized e o c =
          g_closure_unref e { c with unref_on_global_object_finalized := false } := by
        simp [global_context_finalized, ho, hfl]
      rw [heq]
      exact inv_g_closure_unref e _ h1
    · have heq : global_context_finalized e o c =
          { c with unref_on_global_object_finalized := false } := by
        simp [global_context_finalized, ho, bool_eq_false hfl]
      rw [heq]
      exact h1
  · have h2 := inv_invalidate_js_pointers e
      { c with unref_on_global_object_finalized := false } h1
    by_cases hfl : c.unref_on_global_object_finalized = true
    · have heq : global_context_finalized e o c =
          g_closure_unref e (invalidate_js_pointers e
            { c with unref_on_global_object_finalized := false }) := by
        simp [global_context_finalized, ho, hfl]
      rw [heq]
      exact inv_g_closure_unref e _ h2.1
    · have heq : global_context_finalized e o c =
          invalidate_js_pointers e
            { c with unref_on_global_object_finalized := false } := by
        simp [global_context_finalized, ho, bool_eq_false hfl]
      rw [heq]
      exact h2.1

/-- `gjs_closure_invoke` preserves the bridge invariant. -/
theorem inv_gjs_closure_invoke (e : Engine) (out : CallOutcome)
    (c : ClosureState) (s : JSState) (retval : Nat) (h : Inv c) :
    Inv (gjs_closure_invoke e out c s retval).c := by
  have h1 := inv_check_context_valid e c h
  by_cases ho : (check_context_valid e c).obj = none
  · have heq : (gjs_closure_invoke e out c s retval).c =
        { check_context_valid e c with context := none } := by
      simp [gjs_closure_invoke, ho]
    rw [heq]
    obtain ⟨hao, hlatch, hclear, hsnap, hfin, hrc⟩ := h1.1
    refine ⟨?_, hlatch, hclear, hsnap, hfin, hrc⟩
    rcases hao with hh | hh
    · exact Or.inl ⟨hh.1, rfl, hh.2.2⟩
    · exact (hh.1 ho).elim
  · have heq : (gjs_closure_invoke e out c s retval).c =
        check_context_valid e c := by
      by_cases hok : out.ok = false
      · simp [gjs_closure_invoke, ho, hok]
      · simp [gjs_closure_invoke, ho, hok]
    rw [heq]
    exact h1.1

/-- One step of the event model preserves the bridge invariant. -/
theorem inv_step (w : World) (ev : Event) (h : Inv w.c) : Inv (step w ev).c := by
  cases ev with
  | ctxDeath rt ctx => exact h
  | globalFinalize =>
      by_cases hf : w.c.finalized = true
      · have heq : step w Event.globalFinalize = w := by simp [step, hf]
        rw [heq]
        exact h
      · cases hreg : w.c.registeredObj with
        | none =>
            have heq : step w Event.globalFinalize = w := by
              simp [step, bool_eq_false hf, hreg]
            rw [heq]
            exact h
        | some o =>
            have heq : (step w Event.globalFinalize).c =
                global_context_finalized w.eng o
                  { w.c with registeredObj := none } := by
              simp [step, bool_eq_false hf, hreg]
            rw [heq]
            exact inv_global_context_finalized _ _ _ (inv_set_registered _ h none)
  | unref =>
      by_cases hf : w.c.finalized = true
      · have heq : step w Event.unref = w := by simp [step, hf]
        rw [heq]
        exact h
      · have heq : (step w Event.unref).c = g_closure_unref w.eng w.c := by
          simp [step, bool_eq_false hf]
        rw [heq]
        exact inv_g_closure_unref _ _ h
  | ref =>
      by_cases hf : w.c.finalized = true
      · have heq : step w Event.ref = w := by simp [step, hf]
        rw [heq]
        exact h
      · have heq : (step w Event.ref).c = g_closure_ref w.c := by
          simp [step, bool_eq_false hf]
        rw [heq]
        exact inv_g_closure_ref _ h
  | invoke out =>
      by_cases hf : w.c.finalized = true
      · have heq : step w (Event.invoke out) = w := by simp [step, hf]
        rw [heq]
        exact h
      · have heq : (step w (Event.invoke out)).c =
            (gjs_closure_invoke w.eng out w.c w.js w.retval).c := by
          simp [step, bool_eq_false hf]
        rw [heq]
        exact inv_gjs_closure_invoke _ _ _ _ _ h
  | invalidate =>
      by_cases hf : w.c.finalized = true
      · have heq : step w Event.invalidate = w := by simp [step, hf]
        rw [heq]
        exact h
      · have heq : (step w Event.invalidate).c = g_closure_invalidate w.eng w.c := by
          simp [step, bool_eq_false hf]
        rw [heq]
        exact inv_g_closure_invalidate _ _ h
  | getContext =>
      by_cases hf : w.c.finalized = true
      · have heq : step w Event.getContext = w := by simp [step, hf]
        rw [heq]
        exact h
      · have heq : (step w Event.getContext).c =
            (gjs_closure_get_context w.eng w.c).1 := by
          simp [step, bool_eq_false hf]
        rw [heq]
        exact (inv_check_context_valid _ _ h).1
  | getCallable => exact h

/-- A fresh bridge satisfies the invariant. -/
theorem inv_gjs_closure_new (rt ctx callable : Nat) :
    Inv (gjs_closure_new rt ctx callable) := by
  unfold Inv AllOrNothing gjs_closure_new
  refine ⟨Or.inr (by simp), by simp, by simp, by simp, by simp, by simp⟩

/-- Every trace of events preserves the bridge invariant. -/
theorem inv_run (w : World) (evs : List Event) (h : Inv w.c) :
    Inv (run w evs).c := by
  induction evs generalizing w with
  | nil => exact h
  | cons ev evs ih => exact ih (step w ev) (inv_step w ev h)

/-- The bridge invariant holds in every world reachable from creation. -/
theorem inv_reachable (live : List (Nat × Nat)) (rt ctx callable : Nat)
    (evs : List Event) : Inv (run (initWorld live rt ctx callable) evs).c :=
  inv_run _ evs (inv_gjs_closure_new rt ctx callable)

/-- A closure whose callable pointer is already null keeps it null across the
lazy liveness check. -/
theorem check_context_valid_obj_none (e : Engine) (c : ClosureState)
    (h : c.obj = none) : (check_context_valid e c).obj = none := by
  cases hrt : c.runtime with
  | none => simpa [check_context_valid, hrt] using h
  | some rt =>
      by_cases hf : contextFound e rt c.context = true
      · simpa [check_context_valid, hrt, hf] using h
      · simp [check_context_valid, hrt, bool_eq_false hf,
          invalidate_js_pointers, h]

/-- A fully cleared triple stays fully cleared across `g_closure_invalidate`:
the notifier sees a dead closure and does nothing, and the bookkeeping around
the dispatch touches neither pointer. -/
theorem g_closure_invalidate_triple_none (e : Engine) (c : ClosureState)
    (h1 : c.obj = none) (h2 : c.context = none) (h3 : c.runtime = none) :
    (g_closure_invalidate e c).obj = none ∧
    (g_closure_invalidate e c).context = none ∧
    (g_closure_invalidate e c).runtime = none := by
  by_cases hI : c.isInvalid = true
  · simp [g_closure_invalidate, hI, h1, h2, h3]
  · have hci : closure_invalidated e
        { c with refCount := c.refCount + 1, isInvalid := true } =
        { c with refCount := c.refCount + 1, isInvalid := true } :=
      closure_invalidated_obj_none e _ (by simpa using h1)
    simp only [g_closure_invalidate, bool_eq_false hI, Bool.false_eq_true,
      if_false, hci]
    split <;> simp [finalizeClosure, h1, h2, h3]

/-- Under either deadness condition the lazy liveness check leaves the
callable pointer null. -/
theorem check_context_valid_dead (e : Engine) (c : ClosureState)
    (hdead : c.obj = none ∨
      ∃ rt, c.runtime = some rt ∧ contextFound e rt c.context = false) :
    (check_context_valid e c).obj = none := by
  rcases hdead with ho | ⟨rt, hrt, hf⟩
  · exact check_context_valid_obj_none e c ho
  · by_cases ho : c.obj = none
    · exact check_context_valid_obj_none e c ho
    · have heq : check_context_valid e c =
          g_closure_invalidate e (clear3 c) := by
        simp [check_context_valid, hrt, hf, invalidate_js_pointers, ho]
      rw [heq]
      exact (g_closure_invalidate_triple_none e (clear3 c) rfl rfl rfl).1

/-! ### Claim theorems -/

/-- C3: at every point between operations of a bridge created by
`gjs_closure_new` — for every interleaving of invocation, the lazy liveness
check, explicit invalidation, unref, the registry notifier, context teardown
and the introspection getters — the triple (obj, context, runtime) is either
all non-null or all null; no partially cleared triple is ever left behind. -/
theorem triple_all_or_nothing_reachable (live : List (Nat × Nat))
    (rt ctx callable : Nat) (evs : List Event) :
    AllOrNothing (run (initWorld live rt ctx callable) evs).c :=
  (inv_reachable live rt ctx callable evs).1

/-- C2: over every interleaving of the invalidation triggers, the
invalidation side effects — clearing the triple (`clearCount`) and firing the
invalidate notification (`notifySnaps`) — happen at most once over the
bridge's lifetime, and exactly once by the time the bridge is finalized; a
trigger arriving after the triple is already null adds no further side
effect. -/
theorem invalidation_side_effects_once (live : List (Nat × Nat))
    (rt ctx callable : Nat) (evs : List Event) :
    ((run (initWorld live rt ctx callable) evs).c.clearCount ≤ 1 ∧
     (run (initWorld live rt ctx callable) evs).c.notifySnaps.length ≤ 1) ∧
    ((run (initWorld live rt ctx callable) evs).c.finalized = true →
      (run (initWorld live rt ctx callable) evs).c.clearCount = 1 ∧
      (run (initWorld live rt ctx callable) evs).c.notifySnaps.length = 1) := by
  obtain ⟨hao, hlatch, hclear, hsnap, hfin, hrc⟩ :=
    inv_reachable live rt ctx callable evs
  constructor
  · constructor
    · rw [hclear]
      split <;> omega
    · rw [hsnap]
      split <;> simp
  · intro hf
    have hI := hfin hf
    have ho := hlatch hI
    constructor
    · rw [hclear, ho]
      rfl
    · rw [hsnap, hI]
      rfl

/-- C7: in every invalidation path the triple is cleared before listeners are
notified: every triple snapshot observable from inside an invalidate
notification, over every reachable trace, is fully null. -/
theorem listeners_observe_cleared_triple (live : List (Nat × Nat))
    (rt ctx callable : Nat) (evs : List Event) :
    ((run (initWorld live rt ctx callable) evs).c.notifySnaps.all
      (fun s => s == ((none : Option Nat), (none : Option Nat),
        (none : Option Nat)))) = true := by
  obtain ⟨hao, hlatch, hclear, hsnap, hfin, hrc⟩ :=
    inv_reachable live rt ctx callable evs
  rw [hsnap]
  split <;> simp

/-- C5: the lazy liveness re-check: on a fully cleared triple it reports
invalid immediately and changes nothing; on a populated triple whose context
is still in the runtime's live-context set it changes nothing and reports
valid; and exactly when the stored context is absent from that set it itself
clears the triple, fires the invalidate notification towards listeners, and
reports invalid. -/
theorem check_context_valid_behaviour (e : Engine) (c : ClosureState) :
    ((c.obj = none ∧ c.context = none ∧ c.runtime = none) →
      closure_is_valid e c = (c, false)) ∧
    (∀ rt, c.obj ≠ none → c.runtime = some rt →
      contextFound e rt c.context = true →
      closure_is_valid e c = (c, true)) ∧
    (∀ rt, c.obj ≠ none → c.isInvalid = false → c.runtime = some rt →
      contextFound e rt c.context = false →
      (closure_is_valid e c).2 = false ∧
      (closure_is_valid e c).1.obj = none ∧
      (closure_is_valid e c).1.context = none ∧
      (closure_is_valid e c).1.runtime = none ∧
      (closure_is_valid e c).1.notifySnaps =
        ((none : Option Nat), (none : Option Nat), (none : Option Nat)) ::
          c.notifySnaps) := by
  refine ⟨?_, ?_, ?_⟩
  · rintro ⟨h1, h2, h3⟩
    simp [closure_is_valid, check_context_valid, h1, h3]
  · intro rt ho hrt hf
    have hobj : c.obj.isSome = true := by
      cases hx : c.obj
      · exact absurd hx ho
      · rfl
    simp [closure_is_valid, check_context_valid, hrt, hf, hobj]
  · intro rt ho hI hrt hf
    have heq : check_context_valid e c = g_closure_invalidate e (clear3 c) := by
      simp [check_context_valid, hrt, hf, invalidate_js_pointers, ho]
    have hci : closure_invalidated e
        { clear3 c with refCount := (clear3 c).refCount + 1, isInvalid := true } =
        { clear3 c with refCount := (clear3 c).refCount + 1, isInvalid := true } :=
      closure_invalidated_obj_none e _ (by simp [clear3])
    have hI2 : (clear3 c).isInvalid = false := hI
    simp only [closure_is_valid, heq]
    simp only [g_closure_invalidate, hI2, Bool.false_eq_true, if_false, hci]
    split <;> simp [clear3, finalizeClosure]

/-- C4: invoking a bridge whose triple is already cleared, or whose stored
context is no longer in the runtime's live-context set, is a benign no-op: it
never dispatches to the callable, leaves the exception state untouched,
leaves the caller's retval slot untouched, and leaves the bridge with a fully
cleared triple rather than surfacing an error. -/
theorem invoke_dead_closure_noop (e : Engine) (out : CallOutcome)
    (c : ClosureState) (s : JSState) (retval : Nat)
    (hao : AllOrNothing c)
    (hdead : c.obj = none ∨
      ∃ rt, c.runtime = some rt ∧ contextFound e rt c.context = false) :
    (gjs_closure_invoke e out c s retval).dispatched = false ∧
    (gjs_closure_invoke e out c s retval).js = s ∧
    (gjs_closure_invoke e out c s retval).retval = retval ∧
    (gjs_closure_invoke e out c s retval).c.obj = none ∧
    (gjs_closure_invoke e out c s retval).c.context = none ∧
    (gjs_closure_invoke e out c s retval).c.runtime = none := by
  have hchk := check_context_valid_dead e c hdead
  have hrt : (check_context_valid e c).runtime = none := by
    rcases hdead with ho | ⟨rt, hrt, hf⟩
    · rcases hao with ⟨h1, h2, h3⟩ | ⟨h1, h2, h3⟩
      · simp [check_context_valid, h3]
      · exact absurd ho h1
    · by_cases ho : c.obj = none
      · rcases hao with ⟨h1, h2, h3⟩ | ⟨h1, h2, h3⟩
        · rw [h3] at hrt
          exact Option.noConfusion hrt
        · exact absurd ho h1
      · have heq : check_context_valid e c =
            g_closure_invalidate e (clear3 c) := by
          simp [check_context_valid, hrt, hf, invalidate_js_pointers, ho]
        rw [heq]
        exact (g_closure_invalidate_triple_none e (clear3 c) rfl rfl rfl).2.2
  simp [gjs_closure_invoke, hchk, hrt]

/-- C9: when `gjs_closure_invoke` takes the no-op path (triple already
cleared, or context gone from the live set), the caller-supplied retval slot
is returned exactly as it was passed in. -/
theorem invoke_dead_closure_retval_untouched (e : Engine) (out : CallOutcome)
    (c : ClosureState) (s : JSState) (retval : Nat)
    (hdead : c.obj = none ∨
      ∃ rt, c.runtime = some rt ∧ contextFound e rt c.context = false) :
    (gjs_closure_invoke e out c s retval).retval = retval := by
  have hchk := check_context_valid_dead e c hdead
  simp [gjs_closure_invoke, hchk]

/-- C6: for a valid bridge (populated triple, context still live) with no
exception pending beforehand, a callable that raises — whether the engine
call returns failure or returns success with the exception left pending —
results in exactly one reported exception and a clear pending-exception slot
after `gjs_closure_invoke` returns. -/
theorem invoke_reports_exception_once (e : Engine) (out : CallOutcome)
    (c : ClosureState) (s : JSState) (retval : Nat) (rt exc : Nat)
    (hrt : c.runtime = some rt) (hfound : contextFound e rt c.context = true)
    (hobj : c.obj ≠ none)
    (hpend : s.pending = none) (hexc : out.excAfter = some exc) :
    (gjs_closure_invoke e out c s retval).js.pending = none ∧
    (gjs_closure_invoke e out c s retval).js.logged = exc :: s.logged ∧
    (gjs_closure_invoke e out c s retval).dispatched = true := by
  have hcheck : check_context_valid e c = c := by
    simp [check_context_valid, hrt, hfound]
  by_cases hok : out.ok = false <;>
    simp [gjs_closure_invoke, hcheck, hobj, hpend, hexc, hok,
      gjs_log_exception]

/-- C8: once the bridge is invalidated (triple fully cleared), both
introspection getters return null. -/
theorem getters_return_null_once_invalidated (e : Engine) (c : ClosureState)
    (h : c.obj = none ∧ c.context = none ∧ c.runtime = none) :
    (gjs_closure_get_context e c).2 = none ∧
    gjs_closure_get_callable c = none := by
  obtain ⟨h1, h2, h3⟩ := h
  constructor
  · simp [gjs_closure_get_context, check_context_valid, h3, h2]
  · exact h1

/-- C10: the boolean result of `gjs_closure_invoke_simple` reflects only
argument marshaling: it equals the push result, and on push failure the
closure is never invoked and the whole state is returned unchanged —
independently of the closure's validity or the call's outcome. -/
theorem invoke_simple_reflects_marshal_only (e : Engine) (out : CallOutcome)
    (pushOk : Bool) (c : ClosureState) (s : JSState) (retval : Nat) :
    (gjs_closure_invoke_simple e out pushOk c s retval).1 = pushOk ∧
    gjs_closure_invoke_simple e out false c s retval = (false, c, s, retval) := by
  constructor
  · cases pushOk <;> simp [gjs_closure_invoke_simple]
  · simp [gjs_closure_invoke_simple]

/-- C1 counterexample: a context is torn down and the next
`gjs_closure_invoke` lazily discovers the dead context and clears the triple
— before the keep-alive registry notifier for that context has fired (its
registration is still pending) — yet the bridge has not set
`unref_on_global_object_finalized` and has taken no extra reference on
itself: the reference count is still the single caller reference, so nothing
protects the bridge's storage until `global_context_finalized` arrives. -/
theorem lazy_clear_takes_no_selfref :
    (run (initWorld [(0, 1)] 0 1 5)
      [Event.ctxDeath 0 1, Event.invoke ⟨true, none, 7⟩]).c.obj = none ∧
    (run (initWorld [(0, 1)] 0 1 5)
      [Event.ctxDeath 0 1, Event.invoke ⟨true, none, 7⟩]).c.clearCount = 1 ∧
    (run (initWorld [(0, 1)] 0 1 5)
      [Event.ctxDeath 0 1, Event.invoke ⟨true, none, 7⟩]).c.registeredObj = some 5 ∧
    (run (initWorld [(0, 1)] 0 1 5)
      [Event.ctxDeath 0 1,
        Event.invoke ⟨true, none, 7⟩]).c.unref_on_global_object_finalized = false ∧
    (run (initWorld [(0, 1)] 0 1 5)
      [Event.ctxDeath 0 1, Event.invoke ⟨true, none, 7⟩]).c.refCount = 1 := by
  decide

/-- C1 (amended): the deferred self-reference is taken when the dead context
is discovered by the liveness check running inside the closure's invalidate
notifier — that is, when `g_closure_invalidate` (explicit invalidation, or
unref-to-zero) reaches a bridge whose stored context has left the runtime's
live set.  At the moment of that clear the bridge sets
`unref_on_global_object_finalized` and takes one extra reference on itself,
and a later `global_context_finalized` resets the flag and releases exactly
that one reference without re-running any invalidation side effect (no new
listener notification, no new clearing). -/
theorem closure_invalidated_deferred_selfref (e : Engine) (c : ClosureState)
    (o rt : Nat)
    (hrt : c.runtime = some rt) (hobj : c.obj ≠ none)
    (hI : c.isInvalid = false)
    (hdead : contextFound e rt c.context = false) :
    (g_closure_invalidate e c).unref_on_global_object_finalized = true ∧
    (g_closure_invalidate e c).refCount = c.refCount + 1 ∧
    (g_closure_invalidate e c).obj = none ∧
    (global_context_finalized e o
      (g_closure_invalidate e c)).unref_on_global_object_finalized = false ∧
    (global_context_finalized e o (g_closure_invalidate e c)).refCount =
      (g_closure_invalidate e c).refCount - 1 ∧
    (global_context_finalized e o (g_closure_invalidate e c)).notifySnaps =
      (g_closure_invalidate e c).notifySnaps ∧
    (global_context_finalized e o (g_closure_invalidate e c)).clearCount =
      (g_closure_invalidate e c).clearCount := by
  have hg : g_closure_invalidate e c =
      { c with obj := none, context := none, runtime := none,
               unref_on_global_object_finalized := true,
               refCount := c.refCount + 1, isInvalid := true,
               clearCount := c.clearCount + 1,
               notifySnaps :=
                 ((none : Option Nat), (none : Option Nat), (none : Option Nat)) ::
                   c.notifySnaps } := by
    simp [g_closure_invalidate, closure_invalidated, check_context_valid_in_notify,
      invalidate_js_pointers_in_notify, clear3, finalizeClosure, hI, hrt, hdead,
      hobj]
  rw [hg]
  refine ⟨rfl, rfl, rfl, ?_, ?_, ?_, ?_⟩ <;>
  · by_cases h1 : c.refCount = 0
    · simp [global_context_finalized, g_closure_unref, g_closure_invalidate,
        finalizeClosure, h1]
    · have h2 : ¬ (c.refCount + 1 = 1) := by omega
      have h3 : ¬ (c.refCount + 1 - 1 = 0) := by omega
      simp [global_context_finalized, g_closure_unref, g_closure_invalidate,
        finalizeClosure, h1, h2, h3]

/-! ### Shared concrete states for the witnesses -/

/-- An engine whose runtime 0 still lists context 1 as live. -/
def exEngineLive : Engine := ⟨[(0, 1)]⟩

/-- An engine in which every context has been torn down. -/
def exEngineDead : Engine := ⟨[]⟩

/-- A freshly created bridge over runtime 0, context 1, callable 5. -/
def exClosure : ClosureState := gjs_closure_new 0 1 5

/-- The same bridge with its triple cleared. -/
def exClearedClosure : ClosureState := clear3 (gjs_closure_new 0 1 5)

/-! ### Witnesses -/

/-- Witness for `closure_invalidated_deferred_selfref`: explicit invalidation
of a fresh bridge whose context has been torn down. -/
theorem closure_invalidated_deferred_selfref_witness :
    (g_closure_invalidate exEngineDead exClosure).unref_on_global_object_finalized = true ∧
    (g_closure_invalidate exEngineDead exClosure).refCount = exClosure.refCount + 1 ∧
    (g_closure_invalidate exEngineDead exClosure).obj = none ∧
    (global_context_finalized exEngineDead 5
      (g_closure_invalidate exEngineDead exClosure)).unref_on_global_object_finalized = false ∧
    (global_context_finalized exEngineDead 5
      (g_closure_invalidate exEngineDead exClosure)).refCount =
      (g_closure_invalidate exEngineDead exClosure).refCount - 1 ∧
    (global_context_finalized exEngineDead 5
      (g_closure_invalidate exEngineDead exClosure)).notifySnaps =
      (g_closure_invalidate exEngineDead exClosure).notifySnaps ∧
    (global_context_finalized exEngineDead 5
      (g_closure_invalidate exEngineDead exClosure)).clearCount =
      (g_closure_invalidate exEngineDead exClosure).clearCount :=
  closure_invalidated_deferred_selfref exEngineDead exClosure 5 0 rfl
    (by decide) rfl (by decide)

/-- Witness for `check_context_valid_behaviour`: the three cases at concrete
bridges. -/
theorem check_context_valid_behaviour_witness :
    closure_is_valid exEngineDead exClearedClosure = (exClearedClosure, false) ∧
    closure_is_valid exEngineLive exClosure = (exClosure, true) ∧
    ((closure_is_valid exEngineDead exClosure).2 = false ∧
     (closure_is_valid exEngineDead exClosure).1.obj = none ∧
     (closure_is_valid exEngineDead exClosure).1.context = none ∧
     (closure_is_valid exEngineDead exClosure).1.runtime = none ∧
     (closure_is_valid exEngineDead exClosure).1.notifySnaps =
       ((none : Option Nat), (none : Option Nat), (none : Option Nat)) ::
         exClosure.notifySnaps) :=
  ⟨(check_context_valid_behaviour exEngineDead exClearedClosure).1 (by decide),
   (check_context_valid_behaviour exEngineLive exClosure).2.1 0 (by decide)
     rfl (by decide),
   (check_context_valid_behaviour exEngineDead exClosure).2.2 0 (by decide)
     rfl rfl (by decide)⟩

/-- Witness for `invoke_dead_closure_noop`: invoking a fresh bridge after its
context left the live set. -/
theorem invoke_dead_closure_noop_witness :
    (gjs_closure_invoke exEngineDead ⟨true, some 9, 7⟩ exClosure ⟨none, []⟩ 3).dispatched = false ∧
    (gjs_closure_invoke exEngineDead ⟨true, some 9, 7⟩ exClosure ⟨none, []⟩ 3).js = ⟨none, []⟩ ∧
    (gjs_closure_invoke exEngineDead ⟨true, some 9, 7⟩ exClosure ⟨none, []⟩ 3).retval = 3 ∧
    (gjs_closure_invoke exEngineDead ⟨true, some 9, 7⟩ exClosure ⟨none, []⟩ 3).c.obj = none ∧
    (gjs_closure_invoke exEngineDead ⟨true, some 9, 7⟩ exClosure ⟨none, []⟩ 3).c.context = none ∧
    (gjs_closure_invoke exEngineDead ⟨true, some 9, 7⟩ exClosure ⟨none, []⟩ 3).c.runtime = none :=
  invoke_dead_closure_noop exEngineDead ⟨true, some 9, 7⟩ exClosure ⟨none, []⟩ 3
    (by decide) (Or.inr ⟨0, rfl, by decide⟩)

/-- Witness for `invoke_dead_closure_retval_untouched`: invoking an
already-cleared bridge leaves the caller's retval slot at its prior value. -/
theorem invoke_dead_closure_retval_untouched_witness :
    (gjs_closure_invoke exEngineLive ⟨true, none, 9⟩ exClearedClosure ⟨none, []⟩ 4).retval = 4 :=
  invoke_dead_closure_retval_untouched exEngineLive ⟨true, none, 9⟩
    exClearedClosure ⟨none, []⟩ 4 (Or.inl (by decide))

/-- Witness for `invoke_reports_exception_once`: a failing call that leaves
exception 4 pending is reported exactly once and the slot is clear after. -/
theorem invoke_reports_exception_once_witness :
    (gjs_closure_invoke exEngineLive ⟨false, some 4, 0⟩ exClosure ⟨none, []⟩ 3).js.pending = none ∧
    (gjs_closure_invoke exEngineLive ⟨false, some 4, 0⟩ exClosure ⟨none, []⟩ 3).js.logged = [4] ∧
    (gjs_closure_invoke exEngineLive ⟨false, some 4, 0⟩ exClosure ⟨none, []⟩ 3).dispatched = true :=
  invoke_reports_exception_once exEngineLive ⟨false, some 4, 0⟩ exClosure
    ⟨none, []⟩ 3 0 4 rfl (by decide) (by decide) rfl rfl

/-- Witness for `getters_return_null_once_invalidated` at a cleared bridge. -/
theorem getters_return_null_once_invalidated_witness :
    (gjs_closure_get_context exEngineLive exClearedClosure).2 = none ∧
    gjs_closure_get_callable exClearedClosure = none :=
  getters_return_null_once_invalidated exEngineLive exClearedClosure (by decide)

end GjsClosure
